import Mathlib

/-
Verification of thriftcli's argument conversion core
(src/thriftcli/thrift_argument_converter.py, Python 2).

The embedding below translates the converter's functions into Lean.
Conventions:
- JSON values (the decoded request body) are the inductive `Json`.
  JSON numbers are modelled as integers; no checked property depends on
  non-integral numerics.
- Python runtime values produced by conversion are the inductive `PyValue`.
- Python exceptions are the inductive `PyError`; `Except PyError` models
  raising.  CPython's recursion limit is modelled by a fuel parameter:
  every conversion function takes a `Nat` fuel and returns
  `PyError.recursionError` when it runs out, so all theorems are
  parametric in the limit.
- The schema index produced by `ThriftParser.parse()` lives in
  thrift_parser.py, which is not part of the sources under verification;
  it is modelled from the spec as the record `ParseResult` of pure,
  total operations (spec section 4.1 declares them total and
  side-effect-free after schema load).
-/

/-- A decoded JSON document (the untyped request body).  Numbers are
modelled as integers. -/
inductive Json where
  | obj : List (String × Json) → Json
  | arr : List Json → Json
  | str : String → Json
  | num : Int → Json
  | bool : Bool → Json
  | null : Json

/-- Python exceptions that the converter can raise.  `thriftCLIError`
is the repository's ThriftCLIError (the spec's FormatError and friends);
the rest are host (builtin) exceptions.  `recursionError` stands for
CPython's RuntimeError on exceeding the recursion limit, triggered here
when the modelling fuel runs out. -/
inductive PyError where
  | thriftCLIError : String → PyError
  | keyError : String → PyError
  | attributeError : String → PyError
  | valueError : String → PyError
  | typeError : String → PyError
  | recursionError : PyError
deriving DecidableEq

/-- A Python runtime value as produced by the converter: primitives,
tuples (lists convert to tuples), frozensets, dicts, and generated
thrift struct instances `vstruct package name kwargs`. -/
inductive PyValue where
  | vstr : String → PyValue
  | vint : Int → PyValue
  | vfloat : Rat → PyValue
  | vbool : Bool → PyValue
  | vnone : PyValue
  | vlist : List PyValue → PyValue
  | vtuple : List PyValue → PyValue
  | vfrozenset : List PyValue → PyValue
  | vdict : List (PyValue × PyValue) → PyValue
  | vstruct : String → String → List (String × PyValue) → PyValue

mutual

/-- Structural equality on `Json` (Python `==` on decoded JSON trees).
Cross-type numeric equalities of Python (`1 == True`) are not modelled;
no checked property depends on them. -/
def jsonEqb : Json → Json → Bool
  | .obj a, .obj b => jsonObjEqb a b
  | .arr a, .arr b => jsonArrEqb a b
  | .str a, .str b => a == b
  | .num a, .num b => a == b
  | .bool a, .bool b => a == b
  | .null, .null => true
  | _, _ => false

def jsonArrEqb : List Json → List Json → Bool
  | [], [] => true
  | a :: as, b :: bs => jsonEqb a b && jsonArrEqb as bs
  | _, _ => false

def jsonObjEqb : List (String × Json) → List (String × Json) → Bool
  | [], [] => true
  | (k, a) :: as, (l, b) :: bs => k == l && jsonEqb a b && jsonObjEqb as bs
  | _, _ => false

end

mutual

/-- Structural equality on `PyValue` (Python `==` on converted values,
with the same caveat on cross-type numeric equality as `jsonEqb`). -/
def pyEqb : PyValue → PyValue → Bool
  | .vstr a, .vstr b => a == b
  | .vint a, .vint b => a == b
  | .vfloat a, .vfloat b => a == b
  | .vbool a, .vbool b => a == b
  | .vnone, .vnone => true
  | .vlist a, .vlist b => pyListEqb a b
  | .vtuple a, .vtuple b => pyListEqb a b
  | .vfrozenset a, .vfrozenset b => pyListEqb a b
  | .vdict a, .vdict b => pyPairListEqb a b
  | .vstruct p a fs, .vstruct q b gs => p == q && a == b && pyKwargsEqb fs gs
  | _, _ => false

def pyListEqb : List PyValue → List PyValue → Bool
  | [], [] => true
  | a :: as, b :: bs => pyEqb a b && pyListEqb as bs
  | _, _ => false

def pyPairListEqb : List (PyValue × PyValue) → List (PyValue × PyValue) → Bool
  | [], [] => true
  | (k, a) :: as, (l, b) :: bs => pyEqb k l && pyEqb a b && pyPairListEqb as bs
  | _, _ => false

def pyKwargsEqb : List (String × PyValue) → List (String × PyValue) → Bool
  | [], [] => true
  | (k, a) :: as, (l, b) :: bs => k == l && pyEqb a b && pyKwargsEqb as bs
  | _, _ => false

end

/-- A declared field: its name and the declared type string
(ThriftStruct.Field as consumed by the converter). -/
structure TField where
  name : String
  field_type : String

/-- Modelled from the spec: the schema index returned by
`ThriftParser.parse()` (thrift_parser.py is not among the sources under
verification).  Spec section 4.1 lists the operations the core consumes
and declares them total and side-effect-free after schema load.
`struct_fields` fuses `get_struct` (`isSome`) with
`get_fields_for_struct_name`; `enum_values` models the generated enum
class's `_NAMES_TO_VALUES` table reached through `_get_type_class`
(reflection over loaded generated modules, assumed present for schema
enums). -/
structure ParseResult where
  unalias_type : String → String
  struct_fields : String → Option (List TField)
  has_enum : String → Bool
  endpoint_fields : String → String → List TField
  enum_values : String → String → String → Option Int

/- Character-level helpers used to model Python string operations. -/

/-- Boolean test that `p` is an initial segment of `cs`. -/
def listStartsWith : List Char → List Char → Bool
  | a :: as, b :: bs => a == b && listStartsWith as bs
  | [], _ => true
  | _, _ => false

/-- Python `needle in hay` for strings: substring containment. -/
def listHasSub (needle : List Char) : List Char → Bool
  | [] => listStartsWith needle []
  | c :: rest => listStartsWith needle (c :: rest) || listHasSub needle rest

/-- Python `s.startswith(p)`. -/
def strStartsWith (s p : String) : Bool :=
  listStartsWith p.data s.data

/-- Python `s.split(sep)` for a one-character separator: splitting on
every occurrence, keeping empty pieces (so `"".split('.') = [""]`). -/
def splitOnChar (c : Char) : List Char → List (List Char)
  | [] => [[]]
  | a :: rest =>
    let r := splitOnChar c rest
    if a == c then [] :: r
    else
      match r with
      | h :: t => (a :: h) :: t
      | [] => [[a]]

/-- Index of the first occurrence of `c` (Python `s.index(c)` without
the raising case, which callers guard). -/
def firstIdxOf (c : Char) : List Char → Option Nat
  | [] => none
  | a :: rest =>
    if a == c then some 0
    else (firstIdxOf c rest).map (· + 1)

/-- Index of the last occurrence of `c` (Python `s.rindex(c)` minus the
raising case, reported as `none`). -/
def lastIdxOf (c : Char) (cs : List Char) : Option Nat :=
  match firstIdxOf c cs.reverse with
  | some i => some (cs.length - 1 - i)
  | none => none

/-- Whitespace for Python `str.strip()`. -/
def isPySpace (c : Char) : Bool :=
  [' ', '\t', '\n', '\r'].contains c

/-- Python `s.strip()`. -/
def stripChars (cs : List Char) : List Char :=
  ((cs.dropWhile isPySpace).reverse.dropWhile isPySpace).reverse

/-- Python `s.strip()` on `String`. -/
def stripStr (s : String) : String :=
  String.mk (stripChars s.data)

/-- Numeric value of a nonempty all-digit character list, `none`
otherwise. -/
def digitsVal : List Char → Option Nat
  | [] => none
  | cs =>
    if cs.all (fun c => c.isDigit) then
      some (cs.foldl (fun acc c => acc * 10 + (c.toNat - 48)) 0)
    else none

/-- Python `long(s)` on a string: strip whitespace, optional sign,
decimal digits (base 10). -/
def parseLongStr (s : String) : Option Int :=
  match stripChars s.data with
  | '+' :: rest => (digitsVal rest).map Int.ofNat
  | '-' :: rest => (digitsVal rest).map (fun n => -(Int.ofNat n))
  | cs => (digitsVal cs).map Int.ofNat

/-- Python `float(s)` on a string: strip whitespace, optional sign,
decimal digits with an optional fractional part.  Exponent forms and
the inf/nan spellings accepted by CPython are outside the fragment any
checked property touches and are reported as parse failures. -/
def parseFloatStr (s : String) : Option Rat :=
  let core : List Char → Option Rat := fun cs =>
    let ip := cs.takeWhile (fun c => c.isDigit)
    let rest := cs.dropWhile (fun c => c.isDigit)
    match rest with
    | [] => (digitsVal ip).map (fun n => (n : Rat))
    | '.' :: rest2 =>
      let fp := rest2.takeWhile (fun c => c.isDigit)
      let rest3 := rest2.dropWhile (fun c => c.isDigit)
      if rest3 = [] && (ip ≠ [] || fp ≠ []) then
        let ipn : Nat := ip.foldl (fun acc c => acc * 10 + (c.toNat - 48)) 0
        let fpn : Nat := fp.foldl (fun acc c => acc * 10 + (c.toNat - 48)) 0
        some ((ipn : Rat) + (fpn : Rat) / ((10 : Rat) ^ fp.length))
      else none
    | _ => none
  match stripChars s.data with
  | '+' :: rest => core rest
  | '-' :: rest => (core rest).map (fun q => -q)
  | cs => core cs

/-- Python type name of a decoded JSON value, used in host error
messages (decoded strings are `unicode` in Python 2; the simpler `str`
is used here, the exact message text carries no checked meaning). -/
def jsonTypeName : Json → String
  | .obj _ => "dict"
  | .arr _ => "list"
  | .str _ => "str"
  | .num _ => "int"
  | .bool _ => "bool"
  | .null => "NoneType"

mutual

/-- Python `repr` of a decoded JSON value, used by `str` on containers.
String escaping inside `repr` is not modelled; no checked property
evaluates string coercion on containers. -/
def reprJson : Json → String
  | .obj kvs => "\x7b" ++ reprObjItems kvs ++ "\x7d"
  | .arr xs => "[" ++ reprArrItems xs ++ "]"
  | .str s => "u'" ++ s ++ "'"
  | .num n => toString n
  | .bool b => if b then "True" else "False"
  | .null => "None"

def reprArrItems : List Json → String
  | [] => ""
  | [x] => reprJson x
  | x :: rest => reprJson x ++ ", " ++ reprArrItems rest

def reprObjItems : List (String × Json) → String
  | [] => ""
  | [(k, v)] => "u'" ++ k ++ "': " ++ reprJson v
  | (k, v) :: rest => "u'" ++ k ++ "': " ++ reprJson v ++ ", " ++ reprObjItems rest

end

/-- Python `str(value)` on a decoded JSON value. -/
def pythonStr : Json → String
  | .str s => s
  | .num n => toString n
  | .bool b => if b then "True" else "False"
  | .null => "None"
  | v => reprJson v

/-- Python `bool(value)` (truthiness) on a decoded JSON value. -/
def pythonBool : Json → Bool
  | .str s => s ≠ ""
  | .num n => n ≠ 0
  | .bool b => b
  | .null => false
  | .arr xs => !xs.isEmpty
  | .obj kvs => !kvs.isEmpty

/-- Python `float(value)` on a decoded JSON value. -/
def pythonFloat : Json → Except PyError Rat
  | .num n => .ok (n : Rat)
  | .bool b => .ok (if b then 1 else 0)
  | .str s =>
    match parseFloatStr s with
    | some q => .ok q
    | none => .error (.valueError ("could not convert string to float: " ++ s))
  | v => .error (.typeError ("float() argument must be a string or a number, not '" ++ jsonTypeName v ++ "'"))

/-- Python `long(value)` on a decoded JSON value.  Note the error
taxonomy: a non-numeric string raises ValueError, while None, dicts and
lists raise TypeError. -/
def pythonLong : Json → Except PyError Int
  | .num n => .ok n
  | .bool b => .ok (if b then 1 else 0)
  | .str s =>
    match parseLongStr s with
    | some n => .ok n
    | none => .error (.valueError ("invalid literal for long() with base 10: '" ++ s ++ "'"))
  | v => .error (.typeError ("long() argument must be a string or a number, not '" ++ jsonTypeName v ++ "'"))

mutual

/-- The Python value a decoded JSON tree already is (returned unchanged
by the fallback branch of `_construct_arg`): dicts, lists and
primitives. -/
def jsonToPy : Json → PyValue
  | .obj kvs => .vdict (jsonToPyObj kvs)
  | .arr xs => .vlist (jsonToPyArr xs)
  | .str s => .vstr s
  | .num n => .vint n
  | .bool b => .vbool b
  | .null => .vnone

def jsonToPyArr : List Json → List PyValue
  | [] => []
  | x :: rest => jsonToPy x :: jsonToPyArr rest

def jsonToPyObj : List (String × Json) → List (PyValue × PyValue)
  | [] => []
  | (k, v) :: rest => (.vstr k, jsonToPy v) :: jsonToPyObj rest

end

/-- Python `name in data` on a decoded JSON value: key membership for
dicts, substring for strings, element membership for lists, and a
TypeError for values that are not iterable (numbers, booleans, None). -/
def pyContains (name : String) : Json → Except PyError Bool
  | .obj kvs => .ok (kvs.any (fun kv => kv.1 == name))
  | .str s => .ok (listHasSub name.data s.data)
  | .arr xs => .ok (xs.any (fun x => jsonEqb x (.str name)))
  | v => .error (.typeError ("argument of type '" ++ jsonTypeName v ++ "' is not iterable"))

/-- Python `data.items()`: the key/value pairs of a dict, an
AttributeError on anything else. -/
def pyItems : Json → Except PyError (List (String × Json))
  | .obj kvs => .ok kvs
  | v => .error (.attributeError ("'" ++ jsonTypeName v ++ "' object has no attribute 'items'"))

/-- Python iteration `for elem in value`: list elements, the characters
of a string, the keys of a dict, and a TypeError otherwise. -/
def pyIter : Json → Except PyError (List Json)
  | .arr xs => .ok xs
  | .str s => .ok (s.data.map (fun c => Json.str (String.mk [c])))
  | .obj kvs => .ok (kvs.map (fun kv => Json.str kv.1))
  | v => .error (.typeError ("'" ++ jsonTypeName v ++ "' object is not iterable"))

/-- Mapping a fallible function over a list, stopping at the first
error (the evaluation order of a Python comprehension). -/
def exceptMapList (f : α → Except PyError β) : List α → Except PyError (List β)
  | [] => .ok []
  | a :: rest =>
    match f a with
    | .ok b =>
      match exceptMapList f rest with
      | .ok bs => .ok (b :: bs)
      | .error e => .error e
    | .error e => .error e

/-- Inserting into a Python dict built as an association list: an equal
key (Python `==`, modelled by `pyEqb`) overwrites in place, a new key
appends. -/
def dictInsert : List (PyValue × PyValue) → PyValue → PyValue → List (PyValue × PyValue)
  | [], k, v => [(k, v)]
  | (k0, v0) :: rest, k, v =>
    if pyEqb k0 k then (k0, v) :: rest
    else (k0, v0) :: dictInsert rest k v

/-- Deduplication for `frozenset(...)`: keep the first occurrence of
each element under Python equality. -/
def setDedup : List PyValue → List PyValue :=
  let rec go : List PyValue → List PyValue → List PyValue
    | acc, [] => acc.reverse
    | acc, a :: rest =>
      if acc.any (fun b => pyEqb b a) then go acc rest
      else go (a :: acc) rest
  go []

/-- String-literal body parsing for the model of `json.loads`: consumes
characters up to an unescaped closing quote.  The common single-char
escapes are handled; \u escapes are outside the modelled fragment. -/
def jpEscapeTable : List (Char × Char) :=
  [('"', '"'), ('\\', '\\'), ('/', '/'), ('n', '\n'), ('t', '\t'), ('r', '\r')]

def jpUnescape (c : Char) : Option Char :=
  (jpEscapeTable.find? (fun pr => pr.1 == c)).map Prod.snd

/-- See `jpUnescape` for the handled escapes. -/
def jpStrChars : List Char → Option (List Char × List Char)
  | [] => none
  | '\\' :: c :: rest =>
    match jpUnescape c with
    | some e => (jpStrChars rest).map (fun pr => (e :: pr.1, pr.2))
    | none => none
  | '"' :: rest => some ([], rest)
  | c :: rest => (jpStrChars rest).map (fun pr => (c :: pr.1, pr.2))

/-- Integer-literal parsing for the model of `json.loads`: an optional
minus and decimal digits.  A literal continuing with '.', 'e' or 'E' is
a non-integral number, outside the modelled fragment, and is reported
as a parse failure. -/
def jpNum (cs : List Char) : Option (Int × List Char) :=
  let core : List Char → Option (Nat × List Char) := fun ds =>
    let ip := ds.takeWhile (fun c => c.isDigit)
    let rest := ds.dropWhile (fun c => c.isDigit)
    match digitsVal ip with
    | some n =>
      match rest with
      | '.' :: _ => none
      | 'e' :: _ => none
      | 'E' :: _ => none
      | _ => some (n, rest)
    | none => none
  match cs with
  | '-' :: rest => (core rest).map (fun pr => (-(Int.ofNat pr.1), pr.2))
  | _ => (core cs).map (fun pr => (Int.ofNat pr.1, pr.2))

mutual

/-- Recursive-descent value parser for the model of `json.loads`.  The
fuel bounds the number of recursive calls (CPython's parser is likewise
recursion-limited); `json_loads` supplies fuel ample for every input. -/
def jpVal : Nat → List Char → Option (Json × List Char)
  | 0, _ => none
  | fuel+1, cs =>
    match cs.dropWhile isPySpace with
    | '"' :: rest => (jpStrChars rest).map (fun pr => (Json.str (String.mk pr.1), pr.2))
    | '[' :: rest => jpArrItems fuel rest
    | '\x7b' :: rest => jpObjItems fuel rest
    | 't' :: 'r' :: 'u' :: 'e' :: rest => some (Json.bool true, rest)
    | 'f' :: 'a' :: 'l' :: 's' :: 'e' :: rest => some (Json.bool false, rest)
    | 'n' :: 'u' :: 'l' :: 'l' :: rest => some (Json.null, rest)
    | other => (jpNum other).map (fun pr => (Json.num pr.1, pr.2))

def jpArrItems : Nat → List Char → Option (Json × List Char)
  | 0, _ => none
  | fuel+1, cs =>
    match cs.dropWhile isPySpace with
    | ']' :: rest => some (Json.arr [], rest)
    | other =>
      match jpVal fuel other with
      | some (v, rest) =>
        (match jpArrTail fuel rest with
         | some (vs, rest2) => some (Json.arr (v :: vs), rest2)
         | none => none)
      | none => none

def jpArrTail : Nat → List Char → Option (List Json × List Char)
  | 0, _ => none
  | fuel+1, cs =>
    match cs.dropWhile isPySpace with
    | ']' :: rest => some ([], rest)
    | ',' :: rest =>
      (match jpVal fuel rest with
       | some (v, rest2) =>
         (match jpArrTail fuel rest2 with
          | some (vs, rest3) => some (v :: vs, rest3)
          | none => none)
       | none => none)
    | _ => none

def jpObjItems : Nat → List Char → Option (Json × List Char)
  | 0, _ => none
  | fuel+1, cs =>
    match cs.dropWhile isPySpace with
    | '\x7d' :: rest => some (Json.obj [], rest)
    | other =>
      match jpObjPair fuel other with
      | some (k, v, rest) =>
        (match jpObjTail fuel rest with
         | some (kvs, rest2) => some (Json.obj ((k, v) :: kvs), rest2)
         | none => none)
      | none => none

def jpObjTail : Nat → List Char → Option (List (String × Json) × List Char)
  | 0, _ => none
  | fuel+1, cs =>
    match cs.dropWhile isPySpace with
    | '\x7d' :: rest => some ([], rest)
    | ',' :: rest =>
      (match jpObjPair fuel rest with
       | some (k, v, rest2) =>
         (match jpObjTail fuel rest2 with
          | some (kvs, rest3) => some ((k, v) :: kvs, rest3)
          | none => none)
       | none => none)
    | _ => none

def jpObjPair : Nat → List Char → Option (String × Json × List Char)
  | 0, _ => none
  | fuel+1, cs =>
    match cs.dropWhile isPySpace with
    | '"' :: rest =>
      (match jpStrChars rest with
       | some (key, rest2) =>
         (match rest2.dropWhile isPySpace with
          | ':' :: rest3 =>
            (match jpVal fuel rest3 with
             | some (v, rest4) => some (String.mk key, v, rest4)
             | none => none)
          | _ => none)
       | none => none)
    | _ => none

end

/-- Python `json.loads(s)`: parse one JSON document, requiring only
whitespace after it; failure raises ValueError as in the Python 2 json
module. -/
def json_loads (s : String) : Except PyError Json :=
  match jpVal (4 * (s.data.length + 1)) s.data with
  | some (v, rest) =>
    if rest.dropWhile isPySpace = [] then .ok v
    else .error (.valueError "Extra data")
  | none => .error (.valueError "No JSON object could be decoded")

/-- Index accumulator for `calc_map_types_split_index`: position of the
first comma at bracket depth zero. -/
def calcSplitGo : List Char → Int → Option Nat
  | [], _ => none
  | c :: rest, depth =>
    if c == '<' then (calcSplitGo rest (depth + 1)).map (· + 1)
    else if c == '>' then (calcSplitGo rest (depth - 1)).map (· + 1)
    else if c == ',' && depth == 0 then some 0
    else (calcSplitGo rest depth).map (· + 1)

/-- Modelled from the spec: `ThriftParser.calc_map_types_split_index`
(thrift_parser.py is not among the sources under verification).  Spec
section 4.2: scan the inner "K,V" string left to right tracking
bracket-nesting depth, treating a ',' as the separator only when depth
is zero; absence of a qualifying top-level ',' yields -1 (which
`_construct_map_arg` turns into a FormatError). -/
def calc_map_types_split_index (s : String) : Int :=
  match calcSplitGo s.data 0 with
  | some i => (i : Int)
  | none => -1

/-- The slice `field_type[field_type.index('<') + 1 :
field_type.rindex('>')]` shared by the list, set and map constructors:
the text between the first '<' and the last '>'.  A missing '<' or '>'
raises ValueError (the callers' `startswith` guards ensure '<' is
present); an empty or inverted slice is the empty string, as in
Python. -/
def generic_inner (ft : String) : Except PyError String :=
  match firstIdxOf '<' ft.data with
  | none => .error (.valueError "substring not found")
  | some i =>
    match lastIdxOf '>' ft.data with
    | none => .error (.valueError "substring not found")
    | some j => .ok (String.mk ((ft.data.drop (i + 1)).take (j - (i + 1))))

/-- The key/value type computation of `_construct_map_arg` (lines
187-192): slice out the inner "K,V" string, locate the top-level
separator with `calc_map_types_split_index` (-1 raises
ThriftCLIError), and strip both halves. -/
def map_key_elem_types (ft : String) : Except PyError (String × String) :=
  match generic_inner ft with
  | .error e => .error e
  | .ok ts =>
    let si := calc_map_types_split_index ts
    if si = -1 then .error (.thriftCLIError ("Invalid type formatting for map - '" ++ ts ++ "'"))
    else .ok (stripStr (String.mk (ts.data.take si.toNat)), stripStr (String.mk (ts.data.drop (si.toNat + 1))))

/-- `_split_field_type`: extract (namespace, type name) from a
namespaced type string; anything but exactly one '.' separator raises
ThriftCLIError. -/
def split_field_type (ft : String) : Except PyError (String × String) :=
  match splitOnChar '.' ft.data with
  | [a, b] => .ok (String.mk a, String.mk b)
  | _ => .error (.thriftCLIError ("Field type should be in format 'Namespace.type', given '" ++ ft ++ "'"))

/-- `_construct_struct_arg`: split the type name and build the
generated struct instance from the already-converted keyword
arguments.  `_get_type_class` reflection is modelled as always finding
the generated class (an environment property of loaded modules). -/
def construct_struct_arg (ft : String) (kwargs : List (String × PyValue)) : Except PyError PyValue :=
  match split_field_type ft with
  | .ok pr => .ok (.vstruct pr.1 pr.2 kwargs)
  | .error e => .error e

/-- `_construct_enum_arg`: integers (and booleans, which satisfy
Python's `isinstance(value, (int, long))`) pass through unchanged;
strings are looked up in the enum's `_NAMES_TO_VALUES` table, where a
missing name raises a bare KeyError.  For any other value the source
builds its error message with `field_type.str(value)`; Python strings
have no attribute `str`, so an AttributeError is raised before the
intended ThriftCLIError can be constructed. -/
def construct_enum_arg (P : ParseResult) (ft : String) (value : Json) : Except PyError PyValue :=
  match split_field_type ft with
  | .error e => .error e
  | .ok pr =>
    match value with
    | .num n => .ok (.vint n)
    | .bool b => .ok (.vbool b)
    | .str s =>
      (match P.enum_values pr.1 pr.2 s with
       | some n => .ok (.vint n)
       | none => .error (.keyError s))
    | _ => .error (.attributeError "'str' object has no attribute 'str'")

mutual

/-- `_convert_dict_to_args_given_fields`, lines 31-48: when exactly one
field is declared and the field's name is not `in` the supplied value
(Python membership), wrap the entire value under that name; then
convert the entries. -/
def convert_dict_to_args_given_fields (P : ParseResult) : Nat → List TField → Json → Except PyError (List (String × PyValue))
  | 0, _, _ => .error .recursionError
  | fuel+1, fields, data =>
    match fields with
    | [f] =>
      (match pyContains f.name data with
       | .ok true => convert_entries P fuel fields data
       | .ok false => convert_entries P fuel fields (.obj [(f.name, data)])
       | .error e => .error e)
    | _ => convert_entries P fuel fields data

/-- The dict comprehension of `_convert_dict_to_args_given_fields`
(lines 46-48): iterate `data.items()` and convert each entry against
its declared field. -/
def convert_entries (P : ParseResult) : Nat → List TField → Json → Except PyError (List (String × PyValue))
  | 0, _, _ => .error .recursionError
  | fuel+1, fields, data =>
    match pyItems data with
    | .ok items => exceptMapList (convert_entry_item P fuel fields) items
    | .error e => .error e

/-- One entry of that comprehension: `fields[field_name]` raises a bare
KeyError when the key names no declared field; otherwise the value is
converted against the field's declared type. -/
def convert_entry_item (P : ParseResult) : Nat → List TField → String × Json → Except PyError (String × PyValue)
  | 0, _, _ => .error .recursionError
  | fuel+1, fields, kv =>
    match fields.find? (fun f => f.name == kv.1) with
    | some f =>
      (match convert_dict_entry_to_arg P fuel f.field_type kv.2 with
       | .ok a => .ok (kv.1, a)
       | .error e => .error e)
    | none => .error (.keyError kv.1)

/-- `_convert_dict_entry_to_arg`, lines 50-65: unalias the type; if it
is a struct, convert the value against the struct's fields first.  In
the source the pre-converted mapping then flows through
`_construct_arg`, whose first branch re-tests `get_struct` on the same
type and same parse result and is therefore taken exactly here; that
branch (`_construct_struct_arg`) is accordingly applied directly, and
`construct_arg` below embeds the remaining, non-struct dispatch. -/
def convert_dict_entry_to_arg (P : ParseResult) : Nat → String → Json → Except PyError PyValue
  | 0, _, _ => .error .recursionError
  | fuel+1, ft0, value =>
    let ft := P.unalias_type ft0
    match P.struct_fields ft with
    | some flds =>
      (match convert_dict_to_args_given_fields P fuel flds value with
       | .ok kwargs => construct_struct_arg ft kwargs
       | .error e => .error e)
    | none => construct_arg P fuel ft value

/-- `_construct_arg`, lines 67-98, for non-struct types (see
`convert_dict_entry_to_arg` for the struct branch): enum, then the
generic prefixes, then the string/double/bool primitives, then the
fallback `long(value)` whose `except ValueError` returns the value
unchanged — any other exception from the coercion propagates. -/
def construct_arg (P : ParseResult) : Nat → String → Json → Except PyError PyValue
  | 0, _, _ => .error .recursionError
  | fuel+1, ft, value =>
    if P.has_enum ft then construct_enum_arg P ft value
    else if strStartsWith ft "list<" then construct_list_arg P fuel ft value
    else if strStartsWith ft "set<" then construct_set_arg P fuel ft value
    else if strStartsWith ft "map<" then construct_map_arg P fuel ft value
    else if ft = "string" then .ok (.vstr (pythonStr value))
    else if ft = "double" then
      (match pythonFloat value with
       | .ok q => .ok (.vfloat q)
       | .error e => .error e)
    else if ft = "bool" then .ok (.vbool (pythonBool value))
    else
      match pythonLong value with
      | .ok n => .ok (.vint n)
      | .error (.valueError _) => .ok (jsonToPy value)
      | .error e => .error e

/-- `_construct_list_arg`, lines 148-160: slice out the element type
between the first '<' and the last '>', then build a tuple by
converting each iterated element. -/
def construct_list_arg (P : ParseResult) : Nat → String → Json → Except PyError PyValue
  | 0, _, _ => .error .recursionError
  | fuel+1, ft, value =>
    match generic_inner ft with
    | .error e => .error e
    | .ok elemType =>
      match pyIter value with
      | .error e => .error e
      | .ok elems =>
        (match exceptMapList (fun e => convert_dict_entry_to_arg P fuel elemType e) elems with
         | .ok args => .ok (.vtuple args)
         | .error e => .error e)

/-- `_construct_set_arg`, lines 162-174: as for lists, but the result
is a frozenset (duplicates collapse, first occurrence kept). -/
def construct_set_arg (P : ParseResult) : Nat → String → Json → Except PyError PyValue
  | 0, _, _ => .error .recursionError
  | fuel+1, ft, value =>
    match generic_inner ft with
    | .error e => .error e
    | .ok elemType =>
      match pyIter value with
      | .error e => .error e
      | .ok elems =>
        (match exceptMapList (fun e => convert_dict_entry_to_arg P fuel elemType e) elems with
         | .ok args => .ok (.vfrozenset (setDedup args))
         | .error e => .error e)

/-- `_construct_map_arg`, lines 176-195: compute the key and value
types with `map_key_elem_types`, then convert each `value.items()`
pair. -/
def construct_map_arg (P : ParseResult) : Nat → String → Json → Except PyError PyValue
  | 0, _, _ => .error .recursionError
  | fuel+1, ft, value =>
    match map_key_elem_types ft with
    | .error e => .error e
    | .ok kv =>
      match pyItems value with
      | .error e => .error e
      | .ok items =>
        (match exceptMapList (convert_map_item P fuel kv.1 kv.2) items with
         | .ok pairs => .ok (.vdict (pairs.foldl (fun acc p => dictInsert acc p.1 p.2) []))
         | .error e => .error e)

/-- One pair of the map comprehension: the key string is first put
through `json.loads` exactly when the (unstripped, un-unaliased) key
type is a struct per `get_struct`; both halves are then converted
recursively.  CPython 2.7 dict comprehensions evaluate the value
expression before the key expression, so the value conversion runs
first. -/
def convert_map_item (P : ParseResult) : Nat → String → String → String × Json → Except PyError (PyValue × PyValue)
  | 0, _, _, _ => .error .recursionError
  | fuel+1, keyType, elemType, ke =>
    match convert_dict_entry_to_arg P fuel elemType ke.2 with
    | .error e => .error e
    | .ok vv =>
      match (if (P.struct_fields keyType).isSome then json_loads ke.1 else .ok (.str ke.1)) with
      | .error e => .error e
      | .ok pk =>
        (match convert_dict_entry_to_arg P fuel keyType pk with
         | .error e => .error e
         | .ok kk => .ok (kk, vv))

end

/-- `convert_args`, lines 15-29: fetch the endpoint's declared fields
and convert the request body against them. -/
def convert_args (P : ParseResult) (fuel : Nat) (service_reference method_name : String) (data : Json) : Except PyError (List (String × PyValue)) :=
  convert_dict_to_args_given_fields P fuel (P.endpoint_fields service_reference method_name) data

/-- The converter object's state: `self._parse_result`, assigned only
in `__init__` (lines 11-13) and read-only everywhere else.  Threading
it explicitly lets statelessness be stated rather than assumed. -/
structure ConverterState where
  parse_result : ParseResult

/-- One method call `converter.convert_args(...)` as a state
transformer on the converter object: the source contains no assignment
to `self` outside `__init__`, so the state out is the state in. -/
def convert_args_call (st : ConverterState) (fuel : Nat) (service_reference method_name : String) (data : Json) : Except PyError (List (String × PyValue)) × ConverterState :=
  (convert_args st.parse_result fuel service_reference method_name data, st)

/-- A JSON primitive in the sense of the spec: string, number, boolean
or null (not an object or array). -/
def isJsonPrimitive : Json → Bool
  | .obj _ => false
  | .arr _ => false
  | _ => true

/- Concrete schema indexes used to instantiate theorems. -/

/-- A schema with no structs, enums or endpoints and identity
aliasing. -/
def schema_empty : ParseResult where
  unalias_type := fun t => t
  struct_fields := fun _ => none
  has_enum := fun _ => false
  endpoint_fields := fun _ _ => []
  enum_values := fun _ _ _ => none

/-- A schema whose endpoint Svc.mth declares exactly one field
`payload: string`. -/
def schema_single_payload : ParseResult where
  unalias_type := fun t => t
  struct_fields := fun _ => none
  has_enum := fun _ => false
  endpoint_fields := fun s m => if s = "Svc" && m = "mth" then [⟨"payload", "string"⟩] else []
  enum_values := fun _ _ _ => none

/-- A schema with the enum Pkg.Color = RED:0, GREEN:1 (the spec's
section 8 example). -/
def schema_color_enum : ParseResult where
  unalias_type := fun t => t
  struct_fields := fun _ => none
  has_enum := fun t => t == "Pkg.Color"
  endpoint_fields := fun _ _ => []
  enum_values := fun p e s =>
    if p = "Pkg" && e = "Color" then
      (if s = "RED" then some 0 else if s = "GREEN" then some 1 else none)
    else none

/-- A schema with the struct Pkg.Point having one field `x: i32`. -/
def schema_point_struct : ParseResult where
  unalias_type := fun t => t
  struct_fields := fun t => if t = "Pkg.Point" then some [⟨"x", "i32"⟩] else none
  has_enum := fun _ => false
  endpoint_fields := fun _ _ => []
  enum_values := fun _ _ _ => none

/-- A schema that (illegally but representably) registers an enum under
the separator-free name BadColor. -/
def schema_bad_enum : ParseResult where
  unalias_type := fun t => t
  struct_fields := fun _ => none
  has_enum := fun t => t == "BadColor"
  endpoint_fields := fun _ _ => []
  enum_values := fun _ _ _ => none

/-- A schema whose endpoint Svc.mth declares two fields `a: i32` and
`b: i32`. -/
def schema_two_fields : ParseResult where
  unalias_type := fun t => t
  struct_fields := fun _ => none
  has_enum := fun _ => false
  endpoint_fields := fun s m => if s = "Svc" && m = "mth" then [⟨"a", "i32"⟩, ⟨"b", "i32"⟩] else []
  enum_values := fun _ _ _ => none

/-- Net bracket-nesting depth contributed by a character list: +1 per
'<', -1 per '>'.  A comma in "K,V" is top-level exactly when the depth
of the text before it is zero. -/
def bracketDepth : List Char → Int
  | [] => 0
  | c :: rest => (if c = '<' then 1 else if c = '>' then (-1 : Int) else 0) + bracketDepth rest

/- Helper lemmas about the comprehension evaluator `exceptMapList`. -/

theorem exceptMapList_ok_length {f : α → Except PyError β} {xs : List α} {rs : List β} (h : exceptMapList f xs = .ok rs) : rs.length = xs.length := by
  induction xs generalizing rs with
  | nil => simp [exceptMapList] at h; simp [← h]
  | cons a rest ih =>
    simp only [exceptMapList] at h
    cases hfa : f a with
    | ok b =>
      rw [hfa] at h
      cases hrest : exceptMapList f rest with
      | ok bs =>
        rw [hrest] at h
        simp at h
        subst h
        simp [ih hrest]
      | error e => rw [hrest] at h; simp at h
    | error e => rw [hfa] at h; simp at h

theorem exceptMapList_ok_get {f : α → Except PyError β} {xs : List α} {rs : List β} (h : exceptMapList f xs = .ok rs) : ∀ i (hi : i < xs.length) (hi2 : i < rs.length), f (xs.get ⟨i, hi⟩) = .ok (rs.get ⟨i, hi2⟩) := by
  induction xs generalizing rs with
  | nil => intro i hi; simp at hi
  | cons a rest ih =>
    simp only [exceptMapList] at h
    cases hfa : f a with
    | ok b =>
      rw [hfa] at h
      cases hrest : exceptMapList f rest with
      | ok bs =>
        rw [hrest] at h
        simp at h
        subst h
        intro i hi hi2
        cases i with
        | zero => simpa using hfa
        | succ j =>
          simp only [List.get]
          exact ih hrest j (by simpa using hi) (by simpa using hi2)
      | error e => rw [hrest] at h; simp at h
    | error e => rw [hfa] at h; simp at h

theorem exceptMapList_append {f : α → Except PyError β} (xs ys : List α) :
    exceptMapList f (xs ++ ys) =
      match exceptMapList f xs with
      | .ok rs =>
        (match exceptMapList f ys with
         | .ok ss => .ok (rs ++ ss)
         | .error e => .error e)
      | .error e => .error e := by
  induction xs with
  | nil =>
    simp only [List.nil_append, exceptMapList]
    cases exceptMapList f ys <;> rfl
  | cons a rest ih =>
    rw [List.cons_append]
    simp only [exceptMapList]
    rw [ih]
    cases f a with
    | ok b =>
      cases exceptMapList f rest with
      | ok rs => cases exceptMapList f ys <;> rfl
      | error e => rfl
    | error e => rfl

/- Characterization of the spec-modelled split-index scan. -/

theorem bracketDepth_cons_lt (l : List Char) : bracketDepth ('<' :: l) = 1 + bracketDepth l := by
  simp [bracketDepth]

theorem bracketDepth_cons_gt (l : List Char) : bracketDepth ('>' :: l) = -1 + bracketDepth l := by
  simp [bracketDepth]

theorem bracketDepth_cons_other (c : Char) (l : List Char) (h1 : c ≠ '<') (h2 : c ≠ '>') : bracketDepth (c :: l) = bracketDepth l := by
  simp [bracketDepth, h1, h2]

theorem calcSplitGo_some_spec (cs : List Char) : ∀ (d : Int) (i : Nat), calcSplitGo cs d = some i →
    cs.get? i = some ',' ∧ d + bracketDepth (cs.take i) = 0 ∧
    ∀ j, j < i → ¬(cs.get? j = some ',' ∧ d + bracketDepth (cs.take j) = 0) := by
  induction cs with
  | nil => intro d i h; simp [calcSplitGo] at h
  | cons c rest ih =>
    intro d i h
    simp only [calcSplitGo] at h
    by_cases hc1 : c = '<'
    · rw [if_pos (by simp [hc1])] at h
      obtain ⟨i2, h2, hi⟩ := Option.map_eq_some'.mp h
      subst hi
      subst hc1
      obtain ⟨hg, hd, hmin⟩ := ih (d + 1) i2 h2
      refine ⟨by simpa using hg, ?_, ?_⟩
      · rw [List.take_succ_cons, bracketDepth_cons_lt]
        omega
      · intro j
        cases j with
        | zero =>
          intro hj hcontra
          have : '<' = ',' := by simpa using hcontra.1
          simp at this
        | succ j2 =>
          intro hj hcontra
          have hg2 : rest.get? j2 = some ',' := by simpa using hcontra.1
          have hd2 : d + 1 + bracketDepth (rest.take j2) = 0 := by
            have := hcontra.2
            rw [List.take_succ_cons, bracketDepth_cons_lt] at this
            omega
          exact hmin j2 (by omega) ⟨hg2, hd2⟩
    · by_cases hc2 : c = '>'
      · rw [if_neg (by simp [hc1]), if_pos (by simp [hc2])] at h
        obtain ⟨i2, h2, hi⟩ := Option.map_eq_some'.mp h
        subst hi
        subst hc2
        obtain ⟨hg, hd, hmin⟩ := ih (d - 1) i2 h2
        refine ⟨by simpa using hg, ?_, ?_⟩
        · rw [List.take_succ_cons, bracketDepth_cons_gt]
          omega
        · intro j
          cases j with
          | zero =>
            intro hj hcontra
            have : '>' = ',' := by simpa using hcontra.1
            simp at this
          | succ j2 =>
            intro hj hcontra
            have hg2 : rest.get? j2 = some ',' := by simpa using hcontra.1
            have hd2 : d - 1 + bracketDepth (rest.take j2) = 0 := by
              have := hcontra.2
              rw [List.take_succ_cons, bracketDepth_cons_gt] at this
              omega
            exact hmin j2 (by omega) ⟨hg2, hd2⟩
      · by_cases hc3 : c = ',' ∧ d = 0
        · rw [if_neg (by simp [hc1]), if_neg (by simp [hc2]), if_pos (by simp [hc3.1, hc3.2])] at h
          have hi : i = 0 := by simpa using h.symm
          subst hi
          refine ⟨by simp [hc3.1], by simpa [bracketDepth] using hc3.2, ?_⟩
          intro j hj
          exact absurd hj (Nat.not_lt_zero j)
        · have hcond : (c == ',' && d == 0) = false := by
            by_cases hcc : c = ','
            · have hdd : ¬(d = 0) := fun hdd => hc3 ⟨hcc, hdd⟩
              simp [hcc, hdd]
            · simp [hcc]
          rw [if_neg (by simp [hc1]), if_neg (by simp [hc2]), if_neg (by simp [hcond])] at h
          obtain ⟨i2, h2, hi⟩ := Option.map_eq_some'.mp h
          subst hi
          obtain ⟨hg, hd, hmin⟩ := ih d i2 h2
          refine ⟨by simpa using hg, ?_, ?_⟩
          · rw [List.take_succ_cons, bracketDepth_cons_other c _ hc1 hc2]
            omega
          · intro j
            cases j with
            | zero =>
              intro hj hcontra
              have hcc : c = ',' := by simpa using hcontra.1
              have hdd : d = 0 := by simpa [bracketDepth] using hcontra.2
              exact hc3 ⟨hcc, hdd⟩
            | succ j2 =>
              intro hj hcontra
              have hg2 : rest.get? j2 = some ',' := by simpa using hcontra.1
              have hd2 : d + bracketDepth (rest.take j2) = 0 := by
                have := hcontra.2
                rw [List.take_succ_cons, bracketDepth_cons_other c _ hc1 hc2] at this
                omega
              exact hmin j2 (by omega) ⟨hg2, hd2⟩

theorem calcSplitGo_isSome_of_comma (cs : List Char) : ∀ (d : Int) (j : Nat), cs.get? j = some ',' → d + bracketDepth (cs.take j) = 0 → (calcSplitGo cs d).isSome := by
  induction cs with
  | nil => intro d j hg; simp at hg
  | cons c rest ih =>
    intro d j hg hd
    simp only [calcSplitGo]
    by_cases hc1 : c = '<'
    · rw [if_pos (by simp [hc1])]
      subst hc1
      cases j with
      | zero => simp at hg
      | succ j2 =>
        have hd2 : (d + 1) + bracketDepth (rest.take j2) = 0 := by
          rw [List.take_succ_cons, bracketDepth_cons_lt] at hd
          omega
        have := ih (d + 1) j2 (by simpa using hg) hd2
        cases hcs : calcSplitGo rest (d + 1) with
        | some i2 => simp [hcs]
        | none => rw [hcs] at this; simp at this
    · by_cases hc2 : c = '>'
      · rw [if_neg (by simp [hc1]), if_pos (by simp [hc2])]
        subst hc2
        cases j with
        | zero => simp at hg
        | succ j2 =>
          have hd2 : (d - 1) + bracketDepth (rest.take j2) = 0 := by
            rw [List.take_succ_cons, bracketDepth_cons_gt] at hd
            omega
          have := ih (d - 1) j2 (by simpa using hg) hd2
          cases hcs : calcSplitGo rest (d - 1) with
          | some i2 => simp [hcs]
          | none => rw [hcs] at this; simp at this
      · by_cases hc3 : c = ',' ∧ d = 0
        · rw [if_neg (by simp [hc1]), if_neg (by simp [hc2]), if_pos (by simp [hc3.1, hc3.2])]
          simp
        · have hcond : (c == ',' && d == 0) = false := by
            by_cases hcc : c = ','
            · have hdd : ¬(d = 0) := fun hdd => hc3 ⟨hcc, hdd⟩
              simp [hcc, hdd]
            · simp [hcc]
          rw [if_neg (by simp [hc1]), if_neg (by simp [hc2]), if_neg (by simp [hcond])]
          cases j with
          | zero =>
            have hcc : c = ',' := by simpa using hg
            have hdd : d = 0 := by simpa [bracketDepth] using hd
            exact absurd ⟨hcc, hdd⟩ hc3
          | succ j2 =>
            have hd2 : d + bracketDepth (rest.take j2) = 0 := by
              rw [List.take_succ_cons, bracketDepth_cons_other c _ hc1 hc2] at hd
              omega
            have := ih d j2 (by simpa using hg) hd2
            cases hcs : calcSplitGo rest d with
            | some i2 => simp [hcs]
            | none => rw [hcs] at this; simp at this

/- Shared facts used by the claim theorems. -/

theorem split_field_type_malformed (ft : String) (hm : (splitOnChar '.' ft.data).length ≠ 2) :
    split_field_type ft = .error (.thriftCLIError ("Field type should be in format 'Namespace.type', given '" ++ ft ++ "'")) := by
  unfold split_field_type
  cases h : splitOnChar '.' ft.data with
  | nil => rfl
  | cons a t =>
    cases t with
    | nil => rfl
    | cons b t2 =>
      cases t2 with
      | nil => exact absurd (by rw [h]; rfl) hm
      | cons c t3 => rfl

theorem pythonLong_no_thriftCLI (v : Json) (m : String) : pythonLong v ≠ .error (.thriftCLIError m) := by
  cases v with
  | str s => simp only [pythonLong]; cases parseLongStr s <;> simp
  | num n => simp [pythonLong]
  | bool b => simp [pythonLong]
  | null => simp [pythonLong]
  | arr xs => simp [pythonLong]
  | obj kvs => simp [pythonLong]

/-- Claim C1, counterexample: the field type "BadType" is a malformed
namespaced name (zero '.' separators) that is no struct, enum, generic
or recognized primitive, yet converting the string "hello" against it
does not fail with a FormatError: it silently falls through to the
fallback and returns the value unchanged. -/
theorem malformed_name_silent_fallback :
    construct_arg schema_empty 1 "BadType" (.str "hello") = .ok (.vstr "hello") := rfl

/-- Claim C1, amended: a malformed namespaced name (not exactly one '.')
raises the FormatError only when the name resolves through the schema —
for an enum name the error is raised for every value; a malformed name
that is no struct, enum, declared generic or recognized primitive never
raises a ThriftCLIError: it takes the integer-coercion fallback. -/
theorem malformed_name_formaterror_only_via_struct_enum (ft : String) (hm : (splitOnChar '.' ft.data).length ≠ 2) :
    (∀ (P : ParseResult) (fuel : Nat) (v : Json), P.has_enum ft = true →
      construct_arg P (fuel+1) ft v = .error (.thriftCLIError ("Field type should be in format 'Namespace.type', given '" ++ ft ++ "'")))
    ∧ (∀ (P : ParseResult) (fuel : Nat) (v : Json), P.struct_fields ft = none → P.has_enum ft = false →
        strStartsWith ft "list<" = false → strStartsWith ft "set<" = false → strStartsWith ft "map<" = false →
        ft ≠ "string" → ft ≠ "double" → ft ≠ "bool" →
        ∀ m, construct_arg P (fuel+1) ft v ≠ .error (.thriftCLIError m)) := by
  constructor
  · intro P fuel v he
    simp [construct_arg, he, construct_enum_arg, split_field_type_malformed ft hm]
  · intro P fuel v hstruct he hl hs hmp h1 h2 h3 m
    have hbody : construct_arg P (fuel+1) ft v =
        (match pythonLong v with
         | .ok n => .ok (.vint n)
         | .error (.valueError _) => .ok (jsonToPy v)
         | .error e => .error e) := by
      simp [construct_arg, he, hl, hs, hmp, h1, h2, h3]
    rw [hbody]
    cases hv : pythonLong v with
    | ok n => simp
    | error e =>
      cases e with
      | valueError s => simp
      | thriftCLIError s => exact absurd hv (pythonLong_no_thriftCLI v s)
      | keyError s => simp
      | attributeError s => simp
      | typeError s => simp
      | recursionError => simp

/-- Claim C1, witness: the schema registering an enum under the malformed name
BadColor makes every conversion against BadColor fail with the
ThriftCLIError of `_split_field_type`. -/
theorem malformed_name_formaterror_witness :
    construct_arg schema_bad_enum 1 "BadColor" .null = .error (.thriftCLIError "Field type should be in format 'Namespace.type', given 'BadColor'") :=
  (malformed_name_formaterror_only_via_struct_enum "BadColor" (by decide)).1 schema_bad_enum 0 .null rfl

/-- Claim C2: on the enum Pkg.Color = RED:0, GREEN:1, an integer passes
through unchanged and a recognized symbolic name yields its ordinal,
but an unrecognized symbolic name raises a bare KeyError (the untyped
host lookup error of `_NAMES_TO_VALUES[value]`), and a value that is
neither an integer nor a string raises an AttributeError, because the
error message is built with `field_type.str(value)` and Python strings
have no attribute `str` — the typed InvalidEnumValueError
(ThriftCLIError) the claim promises is never reached. -/
theorem enum_conversion_behavior :
    construct_enum_arg schema_color_enum "Pkg.Color" (.str "GREEN") = .ok (.vint 1)
    ∧ construct_enum_arg schema_color_enum "Pkg.Color" (.num 1) = .ok (.vint 1)
    ∧ construct_enum_arg schema_color_enum "Pkg.Color" (.str "BLUE") = .error (.keyError "BLUE")
    ∧ construct_enum_arg schema_color_enum "Pkg.Color" .null = .error (.attributeError "'str' object has no attribute 'str'")
    ∧ construct_enum_arg schema_color_enum "Pkg.Color" (.arr []) = .error (.attributeError "'str' object has no attribute 'str'") :=
  ⟨rfl, rfl, rfl, rfl, rfl⟩

/-- Claim C3, counterexample: an endpoint declaring exactly one field
`payload: string`, called with the raw JSON number 5 (which is not
keyed by "payload"), does not wrap the value as the claim states:
Python's `field.name not in data` membership test raises a TypeError on
an integer. -/
theorem single_field_shorthand_counterexample :
    convert_args schema_single_payload 3 "Svc" "mth" (.num 5) = .error (.typeError "argument of type 'int' is not iterable")
    ∧ convert_args schema_single_payload 50 "Svc" "mth" (.num 5) = .error (.typeError "argument of type 'int' is not iterable") :=
  ⟨rfl, rfl⟩

/-- Claim C3, amended: for a sole declared field the value is wrapped
exactly when the Python membership test `field.name not in data`
succeeds and is true — key membership for objects, substring for
strings, element membership for arrays; when the name is contained the
value is processed unwrapped, and on numbers, booleans and null the
membership test itself raises a TypeError.  With more than one
declared field no wrapping ever happens. -/
theorem single_field_shorthand_membership (P : ParseResult) (fuel : Nat) (fld : TField) (data : Json) :
    (pyContains fld.name data = .ok false →
      convert_dict_to_args_given_fields P (fuel+1) [fld] data = convert_entries P fuel [fld] (.obj [(fld.name, data)]))
    ∧ (pyContains fld.name data = .ok true →
      convert_dict_to_args_given_fields P (fuel+1) [fld] data = convert_entries P fuel [fld] data)
    ∧ (∀ e, pyContains fld.name data = .error e →
      convert_dict_to_args_given_fields P (fuel+1) [fld] data = .error e)
    ∧ (∀ (fields : List TField), fields.length ≠ 1 →
      convert_dict_to_args_given_fields P (fuel+1) fields data = convert_entries P fuel fields data) := by
  refine ⟨?_, ?_, ?_, ?_⟩
  · intro h; simp [convert_dict_to_args_given_fields, h]
  · intro h; simp [convert_dict_to_args_given_fields, h]
  · intro e h; simp [convert_dict_to_args_given_fields, h]
  · intro fields hlen
    cases fields with
    | nil => simp [convert_dict_to_args_given_fields]
    | cons f1 t =>
      cases t with
      | nil => simp at hlen
      | cons f2 t2 => simp [convert_dict_to_args_given_fields]

/-- Claim C3, witness: the spec's own example — sole field `payload: string`
with raw input "hello" — is wrapped before further processing. -/
theorem single_field_shorthand_witness :
    convert_dict_to_args_given_fields schema_single_payload 3 [⟨"payload", "string"⟩] (.str "hello") =
      convert_entries schema_single_payload 2 [⟨"payload", "string"⟩] (.obj [("payload", .str "hello")]) :=
  (single_field_shorthand_membership schema_single_payload 2 ⟨"payload", "string"⟩ (.str "hello")).1 rfl

/-- Claim C4: map type splitting is bracket-depth aware.  (a) For
`map<Foo.Bar,list<double>>` the computed key type is Foo.Bar and the
value type is list<double>.  (b) Whenever the split index is a
position, that position holds the first comma at bracket-nesting depth
zero of the inner string.  (c) When the inner string contains no
top-level comma at all, conversion of any value raises the
ThriftCLIError (FormatError). -/
theorem map_split_depth_aware :
    map_key_elem_types "map<Foo.Bar,list<double>>" = .ok ("Foo.Bar", "list<double>")
    ∧ (∀ (ts : String) (i : Nat), calc_map_types_split_index ts = (i : Int) →
        ts.data.get? i = some ',' ∧ bracketDepth (ts.data.take i) = 0 ∧
        ∀ j, j < i → ¬(ts.data.get? j = some ',' ∧ bracketDepth (ts.data.take j) = 0))
    ∧ (∀ (P : ParseResult) (fuel : Nat) (ft v ts) , generic_inner ft = .ok ts →
        (∀ j, ¬(ts.data.get? j = some ',' ∧ bracketDepth (ts.data.take j) = 0)) →
        construct_map_arg P (fuel+1) ft v = .error (.thriftCLIError ("Invalid type formatting for map - '" ++ ts ++ "'"))) := by
  refine ⟨rfl, ?_, ?_⟩
  · intro ts i h
    unfold calc_map_types_split_index at h
    cases hcs : calcSplitGo ts.data 0 with
    | some i2 =>
      rw [hcs] at h
      simp only [Nat.cast_inj] at h
      subst h
      obtain ⟨hg, hd, hmin⟩ := calcSplitGo_some_spec ts.data 0 i2 hcs
      refine ⟨hg, by omega, ?_⟩
      intro j hj hcontra
      exact hmin j hj ⟨hcontra.1, by omega⟩
    | none => rw [hcs] at h; simp at h
  · intro P fuel ft v ts hgi hnone
    have hcs : calcSplitGo ts.data 0 = none := by
      cases hcs : calcSplitGo ts.data 0 with
      | some i =>
        obtain ⟨hg, hd, _⟩ := calcSplitGo_some_spec ts.data 0 i hcs
        exact absurd ⟨hg, by omega⟩ (hnone i)
      | none => rfl
    have hsplit : map_key_elem_types ft = .error (.thriftCLIError ("Invalid type formatting for map - '" ++ ts ++ "'")) := by
      simp [map_key_elem_types, hgi, calc_map_types_split_index, hcs]
    simp [construct_map_arg, hsplit]

/-- Claim C4, witness: `map<set<i32>>` has no top-level comma in its inner
string `set<i32>`, so map conversion fails with the FormatError. -/
theorem map_split_depth_aware_witness :
    construct_map_arg schema_empty 1 "map<set<i32>>" (.obj []) = .error (.thriftCLIError "Invalid type formatting for map - 'set<i32>'") :=
  map_split_depth_aware.2.2 schema_empty 0 "map<set<i32>>" (.obj []) "set<i32>" rfl
    (fun j hc => absurd (List.get?_mem hc.1) (by decide))

/-- Claim C5: for a map-typed field given a JSON object, the entries are
converted pairwise with the key and value types computed by the split;
each entry's value is converted with the value type directly, while the
entry's key string is first parsed as a JSON document exactly when the
key type resolves to a struct, and is converted as supplied otherwise.
(The value conversion appears first because CPython 2.7 dict
comprehensions evaluate the value expression before the key
expression.) -/
theorem map_key_struct_json_parsing (P : ParseResult) (fuel : Nat) (ft kT eT : String)
    (hkv : map_key_elem_types ft = .ok (kT, eT)) :
    (∀ (kvs : List (String × Json)), construct_map_arg P (fuel+1) ft (.obj kvs) =
      (match exceptMapList (convert_map_item P fuel kT eT) kvs with
       | .ok pairs => .ok (.vdict (pairs.foldl (fun acc p => dictInsert acc p.1 p.2) []))
       | .error e => .error e))
    ∧ (∀ (key : String) (v : Json), (P.struct_fields kT).isSome = true →
      convert_map_item P (fuel+1) kT eT (key, v) =
        (match convert_dict_entry_to_arg P fuel eT v with
         | .error e => .error e
         | .ok vv =>
           (match json_loads key with
            | .error e => .error e
            | .ok pk =>
              (match convert_dict_entry_to_arg P fuel kT pk with
               | .error e => .error e
               | .ok kk => .ok (kk, vv)))))
    ∧ (∀ (key : String) (v : Json), P.struct_fields kT = none →
      convert_map_item P (fuel+1) kT eT (key, v) =
        (match convert_dict_entry_to_arg P fuel eT v with
         | .error e => .error e
         | .ok vv =>
           (match convert_dict_entry_to_arg P fuel kT (.str key) with
            | .error e => .error e
            | .ok kk => .ok (kk, vv)))) := by
  refine ⟨?_, ?_, ?_⟩
  · intro kvs
    simp [construct_map_arg, hkv, pyItems]
  · intro key v h
    simp [convert_map_item, h]
  · intro key v h
    simp [convert_map_item, h]

/-- Claim C5, witness: with the struct Pkg.Point, a `map<Pkg.Point,i32>` entry
whose key is the JSON-encoded string of an object is parsed and
converted into a struct key; the value is converted with i32. -/
theorem map_key_struct_json_parsing_witness :
    convert_map_item schema_point_struct 7 "Pkg.Point" "i32" ("\x7b\"x\": 3\x7d", .num 7) =
      .ok (.vstruct "Pkg" "Point" [("x", .vint 3)], .vint 7) :=
  ((map_key_struct_json_parsing schema_point_struct 6 "map<Pkg.Point,i32>" "Pkg.Point" "i32" rfl).2.1
    "\x7b\"x\": 3\x7d" (.num 7) rfl).trans rfl

/-- Claim C6: for every primitive JSON value, conversion against "string"
applies Python's text coercion (the identity on the text of a string,
the decimal form of a number), against "double" the float coercion
(the numeric value whenever one exists), and against "bool" the
boolean (truthiness) coercion. -/
theorem primitive_coercions (P : ParseResult) (fuel : Nat)
    (hes : P.has_enum "string" = false) (hed : P.has_enum "double" = false) (heb : P.has_enum "bool" = false) :
    (∀ s, construct_arg P (fuel+1) "string" (.str s) = .ok (.vstr s))
    ∧ (∀ n : Int, construct_arg P (fuel+1) "string" (.num n) = .ok (.vstr (toString n)))
    ∧ (∀ b, construct_arg P (fuel+1) "string" (.bool b) = .ok (.vstr (if b then "True" else "False")))
    ∧ (construct_arg P (fuel+1) "string" .null = .ok (.vstr "None"))
    ∧ (∀ n : Int, construct_arg P (fuel+1) "double" (.num n) = .ok (.vfloat (n : Rat)))
    ∧ (∀ s q, parseFloatStr s = some q → construct_arg P (fuel+1) "double" (.str s) = .ok (.vfloat q))
    ∧ (∀ b, construct_arg P (fuel+1) "double" (.bool b) = .ok (.vfloat (if b then 1 else 0)))
    ∧ (∀ p, isJsonPrimitive p = true → construct_arg P (fuel+1) "bool" p = .ok (.vbool (pythonBool p))) := by
  have hs1 : strStartsWith "string" "list<" = false := rfl
  have hs2 : strStartsWith "string" "set<" = false := rfl
  have hs3 : strStartsWith "string" "map<" = false := rfl
  have hd1 : strStartsWith "double" "list<" = false := rfl
  have hd2 : strStartsWith "double" "set<" = false := rfl
  have hd3 : strStartsWith "double" "map<" = false := rfl
  have hb1 : strStartsWith "bool" "list<" = false := rfl
  have hb2 : strStartsWith "bool" "set<" = false := rfl
  have hb3 : strStartsWith "bool" "map<" = false := rfl
  refine ⟨?_, ?_, ?_, ?_, ?_, ?_, ?_, ?_⟩
  · intro s; simp [construct_arg, hes, hs1, hs2, hs3, pythonStr]
  · intro n; simp [construct_arg, hes, hs1, hs2, hs3, pythonStr]
  · intro b; simp [construct_arg, hes, hs1, hs2, hs3, pythonStr]
  · simp [construct_arg, hes, hs1, hs2, hs3, pythonStr]
  · intro n; simp [construct_arg, hed, hd1, hd2, hd3, pythonFloat]
  · intro s q hq; simp [construct_arg, hed, hd1, hd2, hd3, pythonFloat, hq]
  · intro b; simp [construct_arg, hed, hd1, hd2, hd3, pythonFloat]
  · intro p hp; simp [construct_arg, heb, hb1, hb2, hb3]

/-- Claim C6, witness: the number 7 converts against "string" to the text "7"
under the empty schema. -/
theorem primitive_coercions_witness :
    construct_arg schema_empty 1 "string" (.num 7) = .ok (.vstr "7") :=
  (primitive_coercions schema_empty 0 rfl rfl rfl).2.1 7

/-- Claim C7, counterexample: "i32" is not recognized as struct, enum, list,
set, map, string, double or bool, so conversion of null takes the
fallback — but `long(None)` raises a TypeError, which the fallback's
`except ValueError` does not catch, so conversion raises instead of
returning the value unchanged. -/
theorem fallback_typeerror_counterexample :
    construct_arg schema_empty 1 "i32" .null = .error (.typeError "long() argument must be a string or a number, not 'NoneType'") := rfl

/-- Claim C7, amended: the fallback attempts integer coercion; numbers and
booleans coerce, a numeric string coerces, and a non-numeric string
fails the coercion with a ValueError which is caught, returning the
value unchanged — but for null, objects and arrays the coercion raises
a TypeError that the `except ValueError` clause does not catch, so
conversion raises. -/
theorem fallback_coercion_behavior (P : ParseResult) (fuel : Nat) (ft : String)
    (hstruct : P.struct_fields ft = none) (he : P.has_enum ft = false)
    (hl : strStartsWith ft "list<" = false) (hs : strStartsWith ft "set<" = false)
    (hm : strStartsWith ft "map<" = false)
    (h1 : ft ≠ "string") (h2 : ft ≠ "double") (h3 : ft ≠ "bool") :
    (∀ n : Int, construct_arg P (fuel+1) ft (.num n) = .ok (.vint n))
    ∧ (∀ b, construct_arg P (fuel+1) ft (.bool b) = .ok (.vint (if b then 1 else 0)))
    ∧ (∀ s n, parseLongStr s = some n → construct_arg P (fuel+1) ft (.str s) = .ok (.vint n))
    ∧ (∀ s, parseLongStr s = none → construct_arg P (fuel+1) ft (.str s) = .ok (.vstr s))
    ∧ (construct_arg P (fuel+1) ft .null = .error (.typeError "long() argument must be a string or a number, not 'NoneType'"))
    ∧ (∀ kvs, construct_arg P (fuel+1) ft (.obj kvs) = .error (.typeError "long() argument must be a string or a number, not 'dict'"))
    ∧ (∀ xs, construct_arg P (fuel+1) ft (.arr xs) = .error (.typeError "long() argument must be a string or a number, not 'list'")) := by
  have hbody : ∀ v, construct_arg P (fuel+1) ft v =
      (match pythonLong v with
       | .ok n => .ok (.vint n)
       | .error (.valueError _) => .ok (jsonToPy v)
       | .error e => .error e) := by
    intro v
    simp [construct_arg, he, hl, hs, hm, h1, h2, h3]
  refine ⟨?_, ?_, ?_, ?_, ?_, ?_, ?_⟩
  · intro n; rw [hbody]; simp [pythonLong]
  · intro b; rw [hbody]; simp [pythonLong]
  · intro s n hn; rw [hbody]; simp [pythonLong, hn]
  · intro s hn; rw [hbody]; simp [pythonLong, hn, jsonToPy]
  · rw [hbody]; simp [pythonLong, jsonTypeName]
  · intro kvs; rw [hbody]; simp [pythonLong, jsonTypeName]
  · intro xs; rw [hbody]; simp [pythonLong, jsonTypeName]

/-- Claim C7, witness: the non-numeric string "abc" fails the integer
coercion with a caught ValueError and passes through unchanged. -/
theorem fallback_coercion_witness :
    construct_arg schema_empty 1 "i32" (.str "abc") = .ok (.vstr "abc") :=
  (fallback_coercion_behavior schema_empty 0 "i32" rfl rfl rfl rfl rfl (by decide) (by decide) (by decide)).2.2.2.1 "abc" rfl

/-- Claim C8: converting a JSON array against a list type yields an ordered
sequence of the same length whose i-th element is the conversion of
the array's i-th element against the one element descriptor sliced out
of the type string — the same element type uniformly, order
preserved. -/
theorem list_conversion_pointwise (P : ParseResult) (fuel : Nat) (ft elemT : String) (xs : List Json) (rs : List PyValue)
    (hstruct : P.struct_fields ft = none) (he : P.has_enum ft = false)
    (hpre : strStartsWith ft "list<" = true) (hT : generic_inner ft = .ok elemT)
    (hres : construct_arg P (fuel+2) ft (.arr xs) = .ok (.vtuple rs)) :
    rs.length = xs.length
    ∧ ∀ i (h1 : i < xs.length) (h2 : i < rs.length),
        convert_dict_entry_to_arg P fuel elemT (xs.get ⟨i, h1⟩) = .ok (rs.get ⟨i, h2⟩) := by
  have hres2 : construct_list_arg P (fuel+1) ft (.arr xs) = .ok (.vtuple rs) := by
    simpa [construct_arg, he, hpre] using hres
  simp only [construct_list_arg, hT, pyIter] at hres2
  cases hmap : exceptMapList (fun e => convert_dict_entry_to_arg P fuel elemT e) xs with
  | ok args =>
    rw [hmap] at hres2
    simp at hres2
    subst hres2
    exact ⟨exceptMapList_ok_length hmap, fun i h1 h2 => exceptMapList_ok_get hmap i h1 h2⟩
  | error e => rw [hmap] at hres2; simp at hres2

/-- Claim C8, witness: converting ["1", "2"-shaped inputs] against list<i32>
converts element 0 with i32. -/
theorem list_conversion_pointwise_witness :
    convert_dict_entry_to_arg schema_empty 3 "i32" (.num 1) = .ok (.vint 1) :=
  (list_conversion_pointwise schema_empty 3 "list<i32>" "i32" [.num 1, .str "2"] [.vint 1, .vint 2]
    rfl rfl rfl rfl rfl).2 0 (by decide) (by decide)

/-- Claim C9: one `convert_args` call is a pure function of the converter
state and its arguments: threading the object state through two
successive calls with the same (service, method, json) yields equal
results, and neither call changes the state (the source assigns to
`self` only in `__init__`; the schema-index operations are modelled as
pure per spec section 4.1). -/
theorem convert_args_deterministic_stateless (st : ConverterState) (fuel : Nat) (s m : String) (d : Json) :
    (convert_args_call st fuel s m d).1 = (convert_args_call ((convert_args_call st fuel s m d).2) fuel s m d).1
    ∧ (convert_args_call st fuel s m d).2 = st
    ∧ (convert_args_call ((convert_args_call st fuel s m d).2) fuel s m d).2 = st :=
  ⟨rfl, rfl, rfl⟩

/-- Shape of one comprehension entry: a successful item conversion
keeps the data key and requires that key to name a declared field. -/
theorem convert_entry_item_ok_shape (P : ParseResult) (g : Nat) (fields : List TField) (kv : String × Json) (b : String × PyValue)
    (h : convert_entry_item P g fields kv = .ok b) :
    b.1 = kv.1 ∧ (fields.find? (fun f => f.name == kv.1)).isSome = true := by
  cases g with
  | zero => simp [convert_entry_item] at h
  | succ g2 =>
    simp only [convert_entry_item] at h
    cases hf : fields.find? (fun f => f.name == kv.1) with
    | none => rw [hf] at h; simp at h
    | some f =>
      simp only [hf] at h
      cases hc : convert_dict_entry_to_arg P g2 f.field_type kv.2 with
      | ok a => rw [hc] at h; simp at h; simp [← h, hf]
      | error e => rw [hc] at h; simp at h

/-- A successful comprehension pass keeps the data keys in order and
only ever looks up declared fields. -/
theorem convert_entries_ok_keys (P : ParseResult) (g : Nat) (fields : List TField) :
    ∀ (kvs : List (String × Json)) (rs2 : List (String × PyValue)),
      exceptMapList (convert_entry_item P g fields) kvs = .ok rs2 →
      rs2.map Prod.fst = kvs.map Prod.fst
      ∧ ∀ kv ∈ kvs, (fields.find? (fun f => f.name == kv.1)).isSome = true := by
  intro kvs
  induction kvs with
  | nil => intro rs2 h; simp [exceptMapList] at h; simp [← h]
  | cons kv rest ih =>
    intro rs2 h
    simp only [exceptMapList] at h
    cases hitem : convert_entry_item P g fields kv with
    | ok b =>
      rw [hitem] at h
      cases hrest : exceptMapList (convert_entry_item P g fields) rest with
      | ok bs =>
        rw [hrest] at h
        simp at h
        subst h
        obtain ⟨hkey, hfound⟩ := convert_entry_item_ok_shape P g fields kv b hitem
        obtain ⟨hmap, hall⟩ := ih bs hrest
        refine ⟨by simp [hkey, hmap], ?_⟩
        intro kv2 hmem
        rcases List.mem_cons.mp hmem with heq | hmem2
        · subst heq; exact hfound
        · exact hall kv2 hmem2
      | error e => rw [hrest] at h; simp at h
    | error e => rw [hitem] at h; simp at h

/-- Claim C10: with more than one declared field (no shorthand), a supplied
key that names no declared field makes `fields[field_name]` raise a
bare KeyError — assuming the entries before it convert — rather than a
documented typed error; and a conversion that returns at all has
processed exactly the supplied keys, each naming a declared field, so
unknown keys are never silently ignored and never produce an output
entry. -/
theorem unknown_key_keyerror (P : ParseResult) (fuel : Nat) (fields : List TField)
    (pre : List (String × Json)) (k : String) (v : Json) (rest : List (String × Json)) (rs : List (String × PyValue))
    (hlen : 1 < fields.length)
    (hk : fields.find? (fun f => f.name == k) = none)
    (hpre : exceptMapList (convert_entry_item P (fuel+1) fields) pre = .ok rs) :
    convert_dict_to_args_given_fields P (fuel+3) fields (.obj (pre ++ (k, v) :: rest)) = .error (.keyError k)
    ∧ ∀ (kvs : List (String × Json)) (rs2 : List (String × PyValue)),
        convert_entries P (fuel+2) fields (.obj kvs) = .ok rs2 →
        rs2.map Prod.fst = kvs.map Prod.fst
        ∧ ∀ kv ∈ kvs, (fields.find? (fun f => f.name == kv.1)).isSome = true := by
  constructor
  · cases fields with
    | nil => simp at hlen
    | cons f1 t =>
      cases t with
      | nil => simp at hlen
      | cons f2 t2 =>
        show convert_dict_to_args_given_fields P (fuel+2+1) (f1 :: f2 :: t2) (.obj (pre ++ (k, v) :: rest)) = .error (.keyError k)
        simp only [convert_dict_to_args_given_fields, convert_entries, pyItems]
        rw [exceptMapList_append, hpre]
        simp only [exceptMapList, convert_entry_item, hk]
  · intro kvs rs2 h
    simp only [convert_entries, pyItems] at h
    exact convert_entries_ok_keys P (fuel+1) fields kvs rs2 h

/-- Claim C10, witness: the two-field endpoint given keys "a" and "bad"
raises KeyError "bad". -/
theorem unknown_key_keyerror_witness :
    convert_args schema_two_fields 5 "Svc" "mth" (.obj [("a", .num 1), ("bad", .num 2)]) = .error (.keyError "bad") :=
  (unknown_key_keyerror schema_two_fields 2 [⟨"a", "i32"⟩, ⟨"b", "i32"⟩] [("a", .num 1)] "bad" (.num 2) [] [("a", .vint 1)]
    (by decide) rfl rfl).1
